import Mathlib

/-!
Verification of the two core behaviors of the dev-portal serverless handlers:
the pagination-aggregation routine (repeated near-identically in the zone/port
and voyage handlers; modelled here once, generically in the item type, after
`getVesselPortCalls`) and the webhook polling screener (`handleAutoScreening`).

Upstream HTTP calls are abstracted as functions from the fetch offset (for the
aggregator) or the poll index (for the screener) to a result; JSON response
bodies of unknown shape are abstracted as strings; the clock is the idealized
fake clock the spec prescribes for testing: a poll call itself is instantaneous
and time advances exactly by the slept durations.
-/

namespace DevPortal

/-! ## Data model: page envelopes and HTTP results -/

/-- The `meta` block of an upstream page envelope.  Every field is optional
because upstream responses may omit any of them; `total_count = some 0` is a
present-but-zero value, which JavaScript truthiness treats like an absent one. -/
structure Meta where
  total_count : Option Nat
  limit : Option Nat
  offset : Option Nat
  status_code : Option Nat
  status_message : Option String
deriving Repr, DecidableEq

def emptyMeta : Meta := ⟨none, none, none, none, none⟩

/-- The `data` block of a page envelope: one named array field (called
`port_calls` after `getVesselPortCalls`; the six duplicated handlers differ
only in this field's name).  `none` models the field being absent. -/
structure PageData (α : Type) where
  port_calls : Option (List α)
deriving Repr, DecidableEq

/-- An upstream page envelope: `{ meta, data }`.  `meta = none` models a body
with no `meta` member at all. -/
structure Envelope (α : Type) where
  meta : Option Meta
  data : PageData α
deriving Repr, DecidableEq

/-- A successful axios response: HTTP status, status text, parsed body. -/
structure HttpResp (α : Type) where
  status : Nat
  statusText : String
  data : Envelope α
deriving Repr, DecidableEq

/-- An axios error: the upstream status and body when a response exists
(`error.response?.status`, `error.response?.data`, the latter abstracted as an
abstract string), plus the error's own `message`. -/
structure AxiosErr where
  responseStatus : Option Nat
  responseData : Option String
  message : String
deriving Repr, DecidableEq

/-- JavaScript truthiness of an optional number: `undefined`, `null` and `0`
are falsy. -/
def truthyNat : Option Nat → Bool
  | none => false
  | some n => n != 0

/-- JavaScript `v || fallback` on an optional number: the fallback is used when
`v` is absent or `0`. -/
def orElseNat (v : Option Nat) (fallback : Nat) : Nat :=
  match v with
  | some n => if n != 0 then n else fallback
  | none => fallback

/-- Response bodies the aggregating handlers can produce. -/
inductive Body (α : Type) where
  | envelope (e : Envelope α)
  | errorMessage (error message : String)
  | errorOnly (error : String)
  | raw (data : String)
deriving Repr, DecidableEq

/-- An API gateway result: status code plus JSON body (headers are out of
scope). -/
structure ApiResponse (α : Type) where
  statusCode : Nat
  body : Body α
deriving Repr, DecidableEq

def createResponse (statusCode : Nat) (body : Body α) : ApiResponse α :=
  ⟨statusCode, body⟩

/-- The handler's `handleError` for axios errors: propagate `error.response?.status || 500`
and `error.response?.data || { error: 'API request failed' }` (an empty-string
body is falsy).  The source also maps non-axios errors to a plain 500; only
axios errors can reach it from the abstracted fetches modelled here. -/
def handleError (e : AxiosErr) : ApiResponse α :=
  createResponse (orElseNat e.responseStatus 500)
    (match e.responseData with
     | some s => if s != "" then Body.raw s else Body.errorOnly ("API request failed")
     | none => Body.errorOnly ("API request failed"))

/-- The meta block as the handler sees it after `if (!responseData.meta)
responseData.meta = {}`. -/
def metaOf (e : Envelope α) : Meta := e.meta.getD emptyMeta

/-- The in-place mutation performed on every first page:
`responseData.meta.status_code = initialResponse.status;
responseData.meta.status_message = initialResponse.statusText` (creating the
meta object first when absent). -/
def annotate (e : Envelope α) (status : Nat) (statusText : String) : Envelope α :=
  let m := metaOf e
  let m2 := { m with status_code := some status, status_message := some statusText }
  { e with meta := some m2 }

/-- The 413 message of the aggregating handlers, with the actual total and the
configured ceiling interpolated. -/
def limitExceededMessage (totalCount maxRecords : Nat) : String :=
  "The total number of records (" ++ toString totalCount ++
    ") exceeds the maximum limit of " ++ toString maxRecords ++
    ". Please refine your query parameters to return fewer results."

/-! ## The pagination fetch loop -/

/-- What can abort the additional-fetches loop: an axios error from a page
fetch, or the TypeError raised by `responseData.data.port_calls.push(...)`
when the first page's array is absent while an additional page's array is
present (`[]` included: an empty array is truthy in JavaScript). -/
inductive LoopErr where
  | axios (e : AxiosErr)
  | typeError
deriving Repr, DecidableEq

/-- The `for (let i = 1; i <= remainingRequests; i++)` loop: fetch the page at
`offset = i * limit`; on success append its array (when present) onto the
accumulator; on failure stop at once.  Also records, in order, the offsets at
which fetches were issued.  `steps` is the number of iterations left and `i`
the current loop index. -/
def fetchLoop (fetchPage : Nat → Except AxiosErr (HttpResp α)) (limit : Nat) :
    Option (List α) → Nat → Nat → Except LoopErr (Option (List α)) × List Nat
  | acc, _, 0 => (Except.ok acc, [])
  | acc, i, steps+1 =>
    match fetchPage (i * limit) with
    | Except.error e => (Except.error (LoopErr.axios e), [i * limit])
    | Except.ok resp =>
      match resp.data.data.port_calls, acc with
      | some l, some a =>
        let r := fetchLoop fetchPage limit (some (a ++ l)) (i+1) steps
        (r.1, i * limit :: r.2)
      | some _, none => (Except.error LoopErr.typeError, [i * limit])
      | none, _ =>
        let r := fetchLoop fetchPage limit acc (i+1) steps
        (r.1, i * limit :: r.2)

/-- The aggregating handler (`getVesselPortCalls` and its five near-identical
siblings), from the point where the initial upstream call has been issued.
`initialFetch` is the initial call's outcome (a failure propagates to the
surrounding catch, which applies `handleError`); `fetchPage` performs an
additional call at a given offset.  Returns the HTTP result together with the
list of offsets at which additional fetches were issued, in order. -/
def getVesselPortCalls (getAll : Bool) (maxRecords : Nat)
    (initialFetch : Except AxiosErr (HttpResp α))
    (fetchPage : Nat → Except AxiosErr (HttpResp α)) :
    ApiResponse α × List Nat :=
  match initialFetch with
  | Except.error e => (handleError e, [])
  | Except.ok resp =>
    let responseData := annotate resp.data resp.status resp.statusText
    let m := metaOf responseData
    if !getAll || !truthyNat m.total_count || !truthyNat m.limit then
      (createResponse resp.status (Body.envelope responseData), [])
    else
      let totalCount := m.total_count.getD 0
      let limit := m.limit.getD 0
      if totalCount > maxRecords then
        (createResponse 413 (Body.errorMessage ("Request exceeds maximum record limit")
          (limitExceededMessage totalCount maxRecords)), [])
      else if totalCount ≤ limit then
        (createResponse resp.status (Body.envelope responseData), [])
      else
        let totalRequests := (totalCount + limit - 1) / limit
        let remainingRequests := totalRequests - 1
        match fetchLoop fetchPage limit responseData.data.port_calls 1 remainingRequests with
        | (Except.ok merged, offsets) =>
          (createResponse resp.status
            (Body.envelope { responseData with data := ⟨merged⟩ }), offsets)
        | (Except.error (LoopErr.axios e), offsets) =>
          (createResponse (orElseNat e.responseStatus 500)
            (Body.errorMessage ("Error fetching additional records") (e.message)), offsets)
        | (Except.error LoopErr.typeError, offsets) =>
          (createResponse 500 (Body.errorMessage ("Internal server error")
            ("An unexpected error occurred while fetching additional records")), offsets)

/-- The items an additional page contributes: its array when present, nothing
otherwise. -/
def pageItems (resp : HttpResp α) : List α := resp.data.data.port_calls.getD []

/-- Concatenation of the arrays of pages `i, i+1, …, i+steps-1`, in ascending
page order. -/
def concatItems (pages : Nat → HttpResp α) (i : Nat) : Nat → List α
  | 0 => []
  | steps+1 => pageItems (pages i) ++ concatItems pages (i+1) steps

/-! ## The polling screener -/

/-- One entry of the `objects` array of a screening status response. -/
structure ScreeningObject where
  screening_status : String
  report_generation_complete : Bool
  overall_severity : String
deriving Repr, DecidableEq

/-- A screening status response; `objects = none` models a body with no
`objects` member. -/
structure StatusResponse where
  objects : Option (List ScreeningObject)
deriving Repr, DecidableEq

/-- The completion test of the polling loop: the response must carry a
non-empty `objects` array whose first entry has `screening_status !==
'PENDING'` and `report_generation_complete` true; in that case the captured
verdict is that entry's `overall_severity`. -/
def terminalSeverity (r : StatusResponse) : Option String :=
  match r.objects with
  | some (o :: _) =>
    if o.screening_status != "PENDING" && o.report_generation_complete then
      some o.overall_severity
    else none
  | _ => none

/-- Outcome of a screening run: the verdict (defaulting to `ERROR`), the
source's `screeningComplete` flag, the elapsed times (since polling began) at
which poll calls were issued, in order, and the sleep durations performed, in
order. -/
structure ScreenResult where
  overall_severity : String
  screeningComplete : Bool
  pollTimes : List Nat
  sleeps : List Nat
deriving Repr, DecidableEq

/-- The `while (!screeningComplete && (Date.now() - startTime) < PTE_TIMEOUT)`
loop, under the idealized clock: a poll is instantaneous and each
`sleep(pollIntervalMs)` advances the clock by `intervalMs`.  `k` is the poll
index, `elapsed` the wall-clock time since polling began.  `fuel` bounds the
recursion; callers pass `timeoutMs + 1`, which is never the binding constraint
once `0 < intervalMs`. -/
def pollLoop (poll : Nat → StatusResponse) (intervalMs timeoutMs : Nat) :
    Nat → Nat → Nat → ScreenResult
  | 0, _, _ => ⟨"ERROR", false, [], []⟩
  | fuel+1, k, elapsed =>
    if elapsed < timeoutMs then
      match terminalSeverity (poll k) with
      | some sev => ⟨sev, true, [elapsed], []⟩
      | none =>
        let r := pollLoop poll intervalMs timeoutMs fuel (k+1) (elapsed + intervalMs)
        ⟨r.overall_severity, r.screeningComplete, elapsed :: r.pollTimes, intervalMs :: r.sleeps⟩
    else ⟨"ERROR", false, [], []⟩

/-- The body of `handleAutoScreening` after a successful submission: sleep
`initialDelayMs`, then poll on a fixed interval until completion or until the
elapsed time since polling began reaches `timeoutMs`, with `overall_severity`
defaulting to `ERROR`. -/
def handleAutoScreening (poll : Nat → StatusResponse)
    (initialDelayMs intervalMs timeoutMs : Nat) : ScreenResult :=
  let r := pollLoop poll intervalMs timeoutMs (timeoutMs + 1) 0 0
  { r with sleeps := initialDelayMs :: r.sleeps }

/-- The constant `PTE_TIMEOUT = 300000` (5 minutes). -/
def PTE_TIMEOUT : Nat := 300000

/-- The fixed 5-second pause between polls (`sleep(5000)`). -/
def POLL_INTERVAL_MS : Nat := 5000

/-- The fixed 5-second pause before the first poll (`sleep(5000)`). -/
def INITIAL_DELAY_MS : Nat := 5000

/-- The screening run at the configuration hard-coded in the source. -/
def handleAutoScreeningDefault (poll : Nat → StatusResponse) : ScreenResult :=
  handleAutoScreening poll INITIAL_DELAY_MS POLL_INTERVAL_MS PTE_TIMEOUT

/-- Number of loop iterations run before the elapsed time starting from
`elapsed` reaches `timeoutMs`, stepping by `intervalMs`: the least `m` with
`elapsed + m * intervalMs ≥ timeoutMs` (for a positive interval). -/
def pollCount (intervalMs timeoutMs elapsed : Nat) : Nat :=
  (timeoutMs - elapsed + intervalMs - 1) / intervalMs

/-! ## The webhook notification store -/

/-- The verdict record attached to a stored notification. -/
structure ScreeningVerdict where
  transaction_id : String
  overall_severity : String
deriving Repr, DecidableEq

/-- An incoming webhook notification, reduced to the fields the handler
reads. -/
structure WebhookNotification where
  subscription_id : String
  event_timestamp : String
  imo : Option String
  custom_reference : Option String
  auto_screening : Option ScreeningVerdict
deriving Repr, DecidableEq

/-- Whether the first list is an initial segment of the second. -/
def matchesFront : List Char → List Char → Bool
  | [], _ => true
  | _ :: _, [] => false
  | p :: ps, c :: cs => p == c && matchesFront ps cs

/-- Whether `pat` occurs contiguously inside the list. -/
def containsSeq (pat : List Char) : List Char → Bool
  | [] => matchesFront pat []
  | c :: cs => matchesFront pat (c :: cs) || containsSeq pat cs

/-- JavaScript `s.includes(pat)`: `pat` occurs contiguously inside `s`. -/
def includesSub (s pat : String) : Bool := containsSeq pat.toList s.toList

/-- The item written to the notifications table (the TTL attribute is out of
scope). -/
structure StoredItem where
  id : String
  timestamp : String
  subscription_id : String
  data : WebhookNotification
deriving Repr, DecidableEq

/-- Body of the store endpoint's response. -/
inductive StoreBody where
  | success (id message : String)
  | failure (error : String)
deriving Repr, DecidableEq

/-- Observable outcome of `storeWebhookNotification`: the HTTP result and the
item put into the table, if any. -/
structure StoreOutcome where
  statusCode : Nat
  body : StoreBody
  stored : Option StoredItem
deriving Repr, DecidableEq

/-- The store endpoint `storeWebhookNotification`, with the body already parsed, the screening
flow abstracted by its outcome (`Except.error` models `handleAutoScreening`
throwing, from the submission call or a poll call), the generated UUID passed
in, and the DynamoDB put modelled as succeeding.  When `custom_reference`
contains `AUTO_SCREENING` and an IMO is present, the screening result is
attached to the notification; a screening failure is caught at the call site
and the notification stored without a verdict. -/
def storeWebhookNotification (data : WebhookNotification)
    (screening : Except String ScreeningVerdict) (newId : String) : StoreOutcome :=
  let autoRequested :=
    match data.custom_reference with
    | some r => includesSub r ("AUTO_SCREENING")
    | none => false
  let data2 :=
    if autoRequested then
      match data.imo with
      | some _ =>
        match screening with
        | Except.ok v => { data with auto_screening := some v }
        | Except.error _ => data
      | none => data
    else data
  { statusCode := 201
    body := StoreBody.success newId ("Notification stored successfully")
    stored := some ⟨newId, data2.event_timestamp, data2.subscription_id, data2⟩ }

/-! ## Concrete fixtures used by witnesses and counterexamples -/

def pendingObj : ScreeningObject := ⟨"PENDING", false, "NONE"⟩

def pendingResp : StatusResponse := ⟨some [pendingObj]⟩

def lowResp : StatusResponse := ⟨some [⟨"COMPLETE", true, "LOW"⟩]⟩

def emptyObjectsResp : StatusResponse := ⟨some []⟩

def alwaysPending : Nat → StatusResponse := fun _ => pendingResp

def alwaysEmptyObjects : Nat → StatusResponse := fun _ => emptyObjectsResp

/-- Pending for the first 60 polls, then complete with severity LOW. -/
def pendingSixtyThenLow : Nat → StatusResponse :=
  fun k => if k < 60 then pendingResp else lowResp

/-- Pending for the first 2 polls, then complete with severity LOW. -/
def pendingTwiceThenLow : Nat → StatusResponse :=
  fun k => if k < 2 then pendingResp else lowResp

def mkMeta (t l : Nat) : Meta := ⟨some t, some l, some 0, none, none⟩

def samplePage (t l : Nat) (items : List Nat) : HttpResp Nat :=
  ⟨200, "OK", ⟨some (mkMeta t l), ⟨some items⟩⟩⟩

/-- A fetch stub that always fails; used where no fetch should be issued. -/
def noFetch : Nat → Except AxiosErr (HttpResp Nat) :=
  fun _ => Except.error ⟨none, none, "unexpected fetch"⟩

/-- First page for the 1200-records-in-pages-of-500 scenario. -/
def firstPage1200 : HttpResp Nat := samplePage 1200 500 [1, 2]

def page1200b : HttpResp Nat := samplePage 1200 500 [3]

def page1200c : HttpResp Nat := samplePage 1200 500 [4, 5]

def pages1200 : Nat → HttpResp Nat :=
  fun i => if i = 1 then page1200b else page1200c

def fetch1200 : Nat → Except AxiosErr (HttpResp Nat) :=
  fun off =>
    if off = 500 then Except.ok page1200b
    else if off = 1000 then Except.ok page1200c
    else Except.error ⟨none, none, "unexpected fetch"⟩

/-- An upstream failure whose response carries a status and a body. -/
def err404 : AxiosErr :=
  ⟨some 404, some ("UPSTREAM_BODY"), "Request failed with status code 404"⟩

/-- Fetch stub for the abort scenario: offset 500 succeeds, offset 1000
fails with `err404`. -/
def fetchFailAt1000 : Nat → Except AxiosErr (HttpResp Nat) :=
  fun off =>
    if off = 500 then Except.ok page1200b
    else Except.error err404

/-- First page whose total equals its (large) page size but exceeds the
ceiling 5000. -/
def fullFirstPage : HttpResp Nat := samplePage 6000 6000 [1, 2, 3]

/-- A complete first page: 300 records within a page size of 500. -/
def smallFirstPage : HttpResp Nat := samplePage 300 500 [7]

/-- A first page whose meta carries `total_count: 0`. -/
def zeroTotalPage : HttpResp Nat := samplePage 0 500 [7]

/-- A first page whose meta carries `limit: 0`. -/
def zeroLimitPage : HttpResp Nat := samplePage 900 0 [7]

/-- An incoming notification whose custom reference requests auto screening. -/
def autoScreeningNotification : WebhookNotification :=
  ⟨"sub-1", "2026-01-01T00:00:00Z", some ("9111111"), some ("X_AUTO_SCREENING_Y"), none⟩

/-! ## Helper lemmas: the aggregator's branch structure -/

theorem metaOf_annotate (e : Envelope α) (s : Nat) (t : String) :
    metaOf (annotate e s t) =
      { metaOf e with status_code := some s, status_message := some t } := rfl

theorem annotate_data (e : Envelope α) (s : Nat) (t : String) :
    (annotate e s t).data = e.data := rfl

theorem truthyNat_some_pos {n : Nat} (h : n ≠ 0) : truthyNat (some n) = true := by
  simp [truthyNat, h]

/-- When aggregation is not requested or a pagination field is not truthy, the
handler returns the annotated first page with no additional fetches. -/
theorem getVesselPortCalls_passthrough (resp : HttpResp α)
    (fetchPage : Nat → Except AxiosErr (HttpResp α)) (maxRecords : Nat) (getAll : Bool)
    (h : getAll = false ∨ truthyNat (metaOf resp.data).total_count = false ∨
      truthyNat (metaOf resp.data).limit = false) :
    getVesselPortCalls getAll maxRecords (Except.ok resp) fetchPage =
      (createResponse resp.status
        (Body.envelope (annotate resp.data resp.status resp.statusText)), []) := by
  have hcond : (!getAll ||
      !truthyNat (metaOf (annotate resp.data resp.status resp.statusText)).total_count ||
      !truthyNat (metaOf (annotate resp.data resp.status resp.statusText)).limit) = true := by
    rw [metaOf_annotate]
    rcases h with h | h | h <;> simp [h]
  simp only [getVesselPortCalls]
  rw [if_pos hcond]

/-- When the pagination fields are truthy and the total exceeds the ceiling,
the handler returns the 413 limit-exceeded response with no additional
fetches. -/
theorem getVesselPortCalls_limitExceeded (resp : HttpResp α)
    (fetchPage : Nat → Except AxiosErr (HttpResp α)) (maxRecords T L : Nat)
    (htc : (metaOf resp.data).total_count = some T)
    (hlim : (metaOf resp.data).limit = some L)
    (hT0 : T ≠ 0) (hL0 : L ≠ 0) (hmax : maxRecords < T) :
    getVesselPortCalls true maxRecords (Except.ok resp) fetchPage =
      (createResponse 413 (Body.errorMessage ("Request exceeds maximum record limit")
        (limitExceededMessage T maxRecords)), []) := by
  have hcond : (!true ||
      !truthyNat (metaOf (annotate resp.data resp.status resp.statusText)).total_count ||
      !truthyNat (metaOf (annotate resp.data resp.status resp.statusText)).limit) = false := by
    rw [metaOf_annotate]
    simp [htc, hlim, truthyNat_some_pos hT0, truthyNat_some_pos hL0]
  simp only [getVesselPortCalls]
  rw [if_neg (by rw [hcond]; simp)]
  rw [metaOf_annotate]
  simp only [htc, hlim, Option.getD_some]
  rw [if_pos (by omega)]

/-- When the pagination fields are truthy, the total respects the ceiling and
the first page is already complete, the handler returns the annotated first
page with no additional fetches. -/
theorem getVesselPortCalls_complete (resp : HttpResp α)
    (fetchPage : Nat → Except AxiosErr (HttpResp α)) (maxRecords T L : Nat)
    (htc : (metaOf resp.data).total_count = some T)
    (hlim : (metaOf resp.data).limit = some L)
    (hT0 : T ≠ 0) (hL0 : L ≠ 0) (hmax : T ≤ maxRecords) (hTL : T ≤ L) :
    getVesselPortCalls true maxRecords (Except.ok resp) fetchPage =
      (createResponse resp.status
        (Body.envelope (annotate resp.data resp.status resp.statusText)), []) := by
  have hcond : (!true ||
      !truthyNat (metaOf (annotate resp.data resp.status resp.statusText)).total_count ||
      !truthyNat (metaOf (annotate resp.data resp.status resp.statusText)).limit) = false := by
    rw [metaOf_annotate]
    simp [htc, hlim, truthyNat_some_pos hT0, truthyNat_some_pos hL0]
  simp only [getVesselPortCalls]
  rw [if_neg (by rw [hcond]; simp)]
  rw [metaOf_annotate]
  simp only [htc, hlim, Option.getD_some]
  rw [if_neg (by omega), if_pos hTL]

/-- When the pagination fields are truthy, the total respects the ceiling and
the first page is incomplete, the handler runs the additional-fetches loop for
`ceil(T / L) - 1` iterations and post-processes its outcome. -/
theorem getVesselPortCalls_paginated (resp : HttpResp α)
    (fetchPage : Nat → Except AxiosErr (HttpResp α)) (maxRecords T L : Nat)
    (htc : (metaOf resp.data).total_count = some T)
    (hlim : (metaOf resp.data).limit = some L)
    (hL0 : L ≠ 0) (hmax : T ≤ maxRecords) (hTL : L < T) :
    getVesselPortCalls true maxRecords (Except.ok resp) fetchPage =
      (match fetchLoop fetchPage L resp.data.data.port_calls 1 ((T + L - 1) / L - 1) with
       | (Except.ok merged, offsets) =>
         (createResponse resp.status
           (Body.envelope { annotate resp.data resp.status resp.statusText with
             data := ⟨merged⟩ }), offsets)
       | (Except.error (LoopErr.axios e), offsets) =>
         (createResponse (orElseNat e.responseStatus 500)
           (Body.errorMessage ("Error fetching additional records") (e.message)), offsets)
       | (Except.error LoopErr.typeError, offsets) =>
         (createResponse 500 (Body.errorMessage ("Internal server error")
           ("An unexpected error occurred while fetching additional records")),
          offsets)) := by
  have hT0 : T ≠ 0 := by omega
  have hcond : (!true ||
      !truthyNat (metaOf (annotate resp.data resp.status resp.statusText)).total_count ||
      !truthyNat (metaOf (annotate resp.data resp.status resp.statusText)).limit) = false := by
    rw [metaOf_annotate]
    simp [htc, hlim, truthyNat_some_pos hT0, truthyNat_some_pos hL0]
  simp only [getVesselPortCalls]
  rw [if_neg (by rw [hcond]; simp)]
  rw [metaOf_annotate]
  simp only [htc, hlim, Option.getD_some]
  rw [if_neg (by omega), if_neg (by omega), annotate_data]

/-- Shifting a map over `List.range` by one. -/
theorem range_map_shift {β : Type} (f : Nat → β) (n : Nat) :
    (List.range (n+1)).map f = f 0 :: (List.range n).map (fun j => f (j+1)) := by
  rw [List.range_succ_eq_map, List.map_cons, List.map_map]
  rfl

/-- The additional-fetches loop when every fetch succeeds: the accumulator
grows by each page's array (absent arrays contribute nothing) and the fetched
offsets are `i*limit, (i+1)*limit, …`, in order. -/
theorem fetchLoop_ok (fetchPage : Nat → Except AxiosErr (HttpResp α)) (limit : Nat)
    (pages : Nat → HttpResp α) :
    ∀ (steps i : Nat) (a : List α),
      (∀ j, j < steps → fetchPage ((i + j) * limit) = Except.ok (pages (i + j))) →
      fetchLoop fetchPage limit (some a) i steps =
        (Except.ok (some (a ++ concatItems pages i steps)),
          (List.range steps).map (fun j => (i + j) * limit)) := by
  intro steps
  induction steps with
  | zero =>
    intro i a h
    simp [fetchLoop, concatItems]
  | succ s ih =>
    intro i a h
    have h0 : fetchPage (i * limit) = Except.ok (pages i) := by
      have := h 0 (Nat.succ_pos s)
      simpa using this
    have hrest : ∀ j, j < s → fetchPage ((i + 1 + j) * limit) = Except.ok (pages (i + 1 + j)) := by
      intro j hj
      have := h (j + 1) (by omega)
      have harg : i + (j + 1) = i + 1 + j := by omega
      rwa [harg] at this
    have hshift : (List.range (s+1)).map (fun j => (i + j) * limit) =
        i * limit :: (List.range s).map (fun j => (i + 1 + j) * limit) := by
      rw [range_map_shift (fun j => (i + j) * limit) s]
      have : (fun j => (i + (j + 1)) * limit) = (fun j => (i + 1 + j) * limit) := by
        funext j
        ring_nf
      simp [this]
    rw [hshift]
    cases hp : (pages i).data.data.port_calls with
    | some l =>
      simp only [fetchLoop, h0, hp]
      rw [ih (i+1) (a ++ l) hrest]
      simp [concatItems, pageItems, hp]
    | none =>
      simp only [fetchLoop, h0, hp]
      rw [ih (i+1) a hrest]
      simp [concatItems, pageItems, hp]

/-- The additional-fetches loop when the fetch at loop position `k` (0-based
within the remaining steps) fails after `k` successes: the loop aborts with
that failure, having issued exactly the `k+1` fetches up to and including the
failing one. -/
theorem fetchLoop_fail (fetchPage : Nat → Except AxiosErr (HttpResp α)) (limit : Nat)
    (pages : Nat → HttpResp α) (e : AxiosErr) :
    ∀ (k steps i : Nat) (a : List α), k < steps →
      (∀ j, j < k → fetchPage ((i + j) * limit) = Except.ok (pages (i + j))) →
      fetchPage ((i + k) * limit) = Except.error e →
      fetchLoop fetchPage limit (some a) i steps =
        (Except.error (LoopErr.axios e),
          (List.range (k+1)).map (fun j => (i + j) * limit)) := by
  intro k
  induction k with
  | zero =>
    intro steps i a hks hok hfail
    obtain ⟨s, rfl⟩ : ∃ s, steps = s + 1 := ⟨steps - 1, by omega⟩
    have h0 : fetchPage (i * limit) = Except.error e := by simpa using hfail
    simp only [fetchLoop, h0]
    have : List.range 1 = [0] := rfl
    simp [this]
  | succ k ih =>
    intro steps i a hks hok hfail
    obtain ⟨s, rfl⟩ : ∃ s, steps = s + 1 := ⟨steps - 1, by omega⟩
    have h0 : fetchPage (i * limit) = Except.ok (pages i) := by
      have := hok 0 (Nat.succ_pos k)
      simpa using this
    have hok2 : ∀ j, j < k → fetchPage ((i + 1 + j) * limit) = Except.ok (pages (i + 1 + j)) := by
      intro j hj
      have := hok (j + 1) (by omega)
      have harg : i + (j + 1) = i + 1 + j := by omega
      rwa [harg] at this
    have hfail2 : fetchPage ((i + 1 + k) * limit) = Except.error e := by
      have harg : i + (k + 1) = i + 1 + k := by omega
      rwa [harg] at hfail
    have hshift : (List.range (k+2)).map (fun j => (i + j) * limit) =
        i * limit :: (List.range (k+1)).map (fun j => (i + 1 + j) * limit) := by
      rw [range_map_shift (fun j => (i + j) * limit) (k+1)]
      have : (fun j => (i + (j + 1)) * limit) = (fun j => (i + 1 + j) * limit) := by
        funext j
        ring_nf
      simp [this]
    rw [hshift]
    cases hp : (pages i).data.data.port_calls with
    | some l =>
      simp only [fetchLoop, h0, hp]
      rw [ih s (i+1) (a ++ l) (by omega) hok2 hfail2]
    | none =>
      simp only [fetchLoop, h0, hp]
      rw [ih s (i+1) a (by omega) hok2 hfail2]

/-! ## Claim theorems: the paginated aggregator -/

/-- C1: with aggregation requested, truthy pagination metadata, an incomplete
first page within the ceiling and every additional fetch succeeding, the
handler issues exactly `ceil(T / L) - 1` additional fetches at offsets
`L, 2L, …` in increasing order, and returns the first page's envelope with the
merged array equal to the concatenation of every page's array in ascending
offset order (a page whose array is absent contributing nothing), the meta
block keeping the upstream page-1 `total_count` and `limit` values. -/
theorem C1_full_aggregation (resp : HttpResp α)
    (fetchPage : Nat → Except AxiosErr (HttpResp α)) (pages : Nat → HttpResp α)
    (maxRecords T L : Nat) (l0 : List α)
    (htc : (metaOf resp.data).total_count = some T)
    (hlim : (metaOf resp.data).limit = some L)
    (hL : 0 < L) (hTL : L < T) (hmax : T ≤ maxRecords)
    (hfield : resp.data.data.port_calls = some l0)
    (hfetch : ∀ i, 1 ≤ i → i ≤ (T + L - 1) / L - 1 →
      fetchPage (i * L) = Except.ok (pages i)) :
    getVesselPortCalls true maxRecords (Except.ok resp) fetchPage =
      (createResponse resp.status (Body.envelope
        { annotate resp.data resp.status resp.statusText with
            data := ⟨some (l0 ++ concatItems pages 1 ((T + L - 1) / L - 1))⟩ }),
        (List.range ((T + L - 1) / L - 1)).map (fun j => (1 + j) * L)) := by
  rw [getVesselPortCalls_paginated resp fetchPage maxRecords T L htc hlim (by omega) hmax hTL]
  rw [hfield]
  rw [fetchLoop_ok fetchPage L pages ((T + L - 1) / L - 1) 1 l0
    (fun j hj => hfetch (1 + j) (by omega) (by omega))]

/-- Witness for C1: the 1200-records-in-pages-of-500 scenario (three pages,
two additional fetches at offsets 500 and 1000, merged array `[1,2,3,4,5]`). -/
theorem C1_full_aggregation_witness :
    getVesselPortCalls true 5000 (Except.ok firstPage1200) fetch1200 =
      (createResponse firstPage1200.status (Body.envelope
        { annotate firstPage1200.data firstPage1200.status firstPage1200.statusText with
            data := ⟨some ([1, 2] ++ concatItems pages1200 1 ((1200 + 500 - 1) / 500 - 1))⟩ }),
        (List.range ((1200 + 500 - 1) / 500 - 1)).map (fun j => (1 + j) * 500)) :=
  C1_full_aggregation firstPage1200 fetch1200 pages1200 5000 1200 500 [1, 2]
    rfl rfl (by decide) (by decide) (by decide) rfl
    (by
      intro i h1 h2
      have h2b : i ≤ 2 := by omega
      interval_cases i <;> rfl)

/-- C2: with aggregation requested and truthy pagination metadata, a total
count above the configured ceiling is answered with a 413 limit-exceeded
response whose message names the actual total and the ceiling, with zero
additional fetches; no first-page-complete hypothesis is required, so this
fires even when `total_count ≤ limit`. -/
theorem C2_limit_exceeded (resp : HttpResp α)
    (fetchPage : Nat → Except AxiosErr (HttpResp α)) (maxRecords T L : Nat)
    (htc : (metaOf resp.data).total_count = some T)
    (hlim : (metaOf resp.data).limit = some L)
    (hL0 : L ≠ 0) (hmax : maxRecords < T) :
    getVesselPortCalls true maxRecords (Except.ok resp) fetchPage =
      (createResponse 413 (Body.errorMessage ("Request exceeds maximum record limit")
        (limitExceededMessage T maxRecords)), []) ∧
    limitExceededMessage T maxRecords =
      "The total number of records (" ++ toString T ++ ") exceeds the maximum limit of " ++
        toString maxRecords ++ ". Please refine your query parameters to return fewer results." :=
  ⟨getVesselPortCalls_limitExceeded resp fetchPage maxRecords T L htc hlim (by omega) hL0 hmax,
    rfl⟩

/-- Witness for C2, exhibiting that the check fires even on a complete first
page: `total_count = 6000 = limit` with ceiling 5000 yields the 413 response
and no fetches. -/
theorem C2_limit_exceeded_witness :
    getVesselPortCalls true 5000 (Except.ok fullFirstPage) noFetch =
      (createResponse 413 (Body.errorMessage ("Request exceeds maximum record limit")
        (limitExceededMessage 6000 5000)), []) ∧
    limitExceededMessage 6000 5000 =
      "The total number of records (" ++ toString 6000 ++ ") exceeds the maximum limit of " ++
        toString 5000 ++ ". Please refine your query parameters to return fewer results." :=
  C2_limit_exceeded fullFirstPage noFetch 5000 6000 6000 rfl rfl (by decide) (by decide)

/-- C5 counterexample: a first page that is already complete
(`total_count = limit = 6000`) but exceeds the ceiling 5000 is answered with
the 413 limit error, not with the first page unchanged — the limit check
precedes the first-page-complete check, so "total_count <= limit implies
pass-through" fails without a ceiling hypothesis. -/
theorem C5_counterexample :
    ¬ (getVesselPortCalls true 5000 (Except.ok fullFirstPage) noFetch =
        (createResponse fullFirstPage.status
          (Body.envelope (annotate fullFirstPage.data fullFirstPage.status
            fullFirstPage.statusText)), [])) ∧
    (getVesselPortCalls true 5000 (Except.ok fullFirstPage) noFetch).1.statusCode = 413 := by
  decide

/-- C5 (amended): when aggregation was not requested, or `total_count` or
`limit` is missing, or the first page is complete *and its total is within the
configured ceiling*, the handler returns the first page unchanged except for
the HTTP status annotations, with zero additional fetches. -/
theorem C5_passthrough (resp : HttpResp α)
    (fetchPage : Nat → Except AxiosErr (HttpResp α)) (maxRecords : Nat) (getAll : Bool)
    (h : getAll = false ∨ (metaOf resp.data).total_count = none ∨
      (metaOf resp.data).limit = none ∨
      (∃ T L, (metaOf resp.data).total_count = some T ∧ (metaOf resp.data).limit = some L ∧
        T ≤ L ∧ T ≤ maxRecords)) :
    getVesselPortCalls getAll maxRecords (Except.ok resp) fetchPage =
      (createResponse resp.status
        (Body.envelope (annotate resp.data resp.status resp.statusText)), []) := by
  rcases h with h | h | h | ⟨T, L, htc, hlim, hTL, hmax⟩
  · exact getVesselPortCalls_passthrough resp fetchPage maxRecords getAll (Or.inl h)
  · exact getVesselPortCalls_passthrough resp fetchPage maxRecords getAll
      (Or.inr (Or.inl (by simp [truthyNat, h])))
  · exact getVesselPortCalls_passthrough resp fetchPage maxRecords getAll
      (Or.inr (Or.inr (by simp [truthyNat, h])))
  · by_cases hT0 : T = 0
    · exact getVesselPortCalls_passthrough resp fetchPage maxRecords getAll
        (Or.inr (Or.inl (by simp [truthyNat, htc, hT0])))
    · cases getAll with
      | false => exact getVesselPortCalls_passthrough resp fetchPage maxRecords false (Or.inl rfl)
      | true =>
        exact getVesselPortCalls_complete resp fetchPage maxRecords T L htc hlim hT0
          (by omega) hmax hTL

/-- Witness for C5 (amended): a complete first page within the ceiling is
passed through unchanged with zero fetches. -/
theorem C5_passthrough_witness :
    getVesselPortCalls true 5000 (Except.ok smallFirstPage) noFetch =
      (createResponse smallFirstPage.status
        (Body.envelope (annotate smallFirstPage.data smallFirstPage.status
          smallFirstPage.statusText)), []) :=
  C5_passthrough smallFirstPage noFetch 5000 true
    (Or.inr (Or.inr (Or.inr ⟨300, 500, rfl, rfl, by decide, by decide⟩)))

/-- C6: if the additional fetch at loop index `k` fails after the earlier
ones succeeded, the whole aggregation returns that failure's status (or 500)
and the loop's error message — the result body is not an envelope, so the
items already accumulated are never observed by the caller. -/
theorem C6_abort_on_failure (resp : HttpResp α)
    (fetchPage : Nat → Except AxiosErr (HttpResp α)) (pages : Nat → HttpResp α)
    (maxRecords T L k : Nat) (l0 : List α) (e : AxiosErr)
    (htc : (metaOf resp.data).total_count = some T)
    (hlim : (metaOf resp.data).limit = some L)
    (hL : 0 < L) (hTL : L < T) (hmax : T ≤ maxRecords)
    (hfield : resp.data.data.port_calls = some l0)
    (hk1 : 1 ≤ k) (hkR : k ≤ (T + L - 1) / L - 1)
    (hok : ∀ i, 1 ≤ i → i < k → fetchPage (i * L) = Except.ok (pages i))
    (hfail : fetchPage (k * L) = Except.error e) :
    getVesselPortCalls true maxRecords (Except.ok resp) fetchPage =
      (createResponse (orElseNat e.responseStatus 500)
        (Body.errorMessage ("Error fetching additional records") (e.message)),
        (List.range k).map (fun j => (1 + j) * L)) ∧
    ∀ env : Envelope α,
      (getVesselPortCalls true maxRecords (Except.ok resp) fetchPage).1.body ≠
        Body.envelope env := by
  have hmain : getVesselPortCalls true maxRecords (Except.ok resp) fetchPage =
      (createResponse (orElseNat e.responseStatus 500)
        (Body.errorMessage ("Error fetching additional records") (e.message)),
        (List.range k).map (fun j => (1 + j) * L)) := by
    rw [getVesselPortCalls_paginated resp fetchPage maxRecords T L htc hlim (by omega) hmax hTL]
    rw [hfield]
    have hk : k - 1 + 1 = k := by omega
    have hfail2 : fetchPage ((1 + (k - 1)) * L) = Except.error e := by
      have : 1 + (k - 1) = k := by omega
      rw [this]
      exact hfail
    rw [fetchLoop_fail fetchPage L pages e (k - 1) ((T + L - 1) / L - 1) 1 l0 (by omega)
      (fun j hj => hok (1 + j) (by omega) (by omega)) hfail2]
    rw [hk]
  refine ⟨hmain, ?_⟩
  intro env
  rw [hmain]
  simp [createResponse]

/-- Witness for C6: in the 1200-records scenario, the fetch at offset 1000
fails with a 404 after the fetch at offset 500 succeeded; the handler returns
the 404 with the loop's error message and the page-2 items are discarded. -/
theorem C6_abort_on_failure_witness :
    getVesselPortCalls true 5000 (Except.ok firstPage1200) fetchFailAt1000 =
      (createResponse (orElseNat err404.responseStatus 500)
        (Body.errorMessage ("Error fetching additional records") (err404.message)),
        (List.range 2).map (fun j => (1 + j) * 500)) :=
  (C6_abort_on_failure firstPage1200 fetchFailAt1000 pages1200 5000 1200 500 2 [1, 2] err404
    rfl rfl (by decide) (by decide) (by decide) rfl (by decide) (by decide)
    (by
      intro i h1 h2
      have : i = 1 := by omega
      subst this
      rfl)
    rfl).1

/-- C9: a first page whose `total_count` is literally `0`, or whose `limit` is
literally `0`, is treated exactly like one with the field absent — annotated
pass-through, zero additional fetches — and the truthiness guard on `limit`
means the page-count division is only ever evaluated with a positive divisor. -/
theorem C9_zero_is_absent (resp : HttpResp α)
    (fetchPage : Nat → Except AxiosErr (HttpResp α)) (maxRecords : Nat) (getAll : Bool) :
    ((metaOf resp.data).total_count = some 0 →
      getVesselPortCalls getAll maxRecords (Except.ok resp) fetchPage =
        (createResponse resp.status
          (Body.envelope (annotate resp.data resp.status resp.statusText)), [])) ∧
    ((metaOf resp.data).limit = some 0 →
      getVesselPortCalls getAll maxRecords (Except.ok resp) fetchPage =
        (createResponse resp.status
          (Body.envelope (annotate resp.data resp.status resp.statusText)), [])) ∧
    (truthyNat (metaOf resp.data).limit = true →
      0 < ((metaOf resp.data).limit.getD 0)) := by
  refine ⟨?_, ?_, ?_⟩
  · intro h
    exact getVesselPortCalls_passthrough resp fetchPage maxRecords getAll
      (Or.inr (Or.inl (by simp [truthyNat, h])))
  · intro h
    exact getVesselPortCalls_passthrough resp fetchPage maxRecords getAll
      (Or.inr (Or.inr (by simp [truthyNat, h])))
  · intro h
    cases hl : (metaOf resp.data).limit with
    | none => rw [hl] at h; simp [truthyNat] at h
    | some n =>
      rw [hl] at h
      simp only [truthyNat, bne_iff_ne, ne_eq] at h
      simp only [Option.getD_some]
      omega

/-- Witness for C9: pages with `total_count: 0` and with `limit: 0` are passed
through with zero fetches, and a truthy limit of 500 is positive. -/
theorem C9_zero_is_absent_witness :
    (getVesselPortCalls true 5000 (Except.ok zeroTotalPage) noFetch =
      (createResponse zeroTotalPage.status
        (Body.envelope (annotate zeroTotalPage.data zeroTotalPage.status
          zeroTotalPage.statusText)), []) ∧
    getVesselPortCalls true 5000 (Except.ok zeroLimitPage) noFetch =
      (createResponse zeroLimitPage.status
        (Body.envelope (annotate zeroLimitPage.data zeroLimitPage.status
          zeroLimitPage.statusText)), []) ∧
    0 < ((metaOf smallFirstPage.data).limit.getD 0)) :=
  ⟨(C9_zero_is_absent zeroTotalPage noFetch 5000 true).1 rfl,
    (C9_zero_is_absent zeroLimitPage noFetch 5000 true).2.1 rfl,
    (C9_zero_is_absent smallFirstPage noFetch 5000 true).2.2 rfl⟩

/-- C8 counterexample: the fetch at offset 1000 fails with a response carrying
status 404 and the body "UPSTREAM_BODY"; the aggregation reuses the status but
its body is the loop's fixed error message built from the axios error's
`message`, not the upstream response body — the claim's "status code and
response body … for every additional page fetch alike" fails. -/
theorem C8_counterexample :
    err404.responseData = some ("UPSTREAM_BODY") ∧
    (getVesselPortCalls true 5000 (Except.ok firstPage1200) fetchFailAt1000).1.statusCode
      = 404 ∧
    (getVesselPortCalls true 5000 (Except.ok firstPage1200) fetchFailAt1000).1.body ≠
      Body.raw ("UPSTREAM_BODY") ∧
    (getVesselPortCalls true 5000 (Except.ok firstPage1200) fetchFailAt1000).1.body =
      Body.errorMessage ("Error fetching additional records")
        ("Request failed with status code 404") := by
  decide

/-- C8 (amended): an initial-fetch failure is answered through `handleError`
with the upstream's status when available (else 500) and the upstream's
response body when available (else the generic API-request-failed body); an
additional-fetch failure is likewise answered with the upstream's status when
available (else 500), but its body is the loop's fixed
error-fetching-additional-records message carrying the axios error's
`message`, never the raw upstream response body. -/
theorem C8_upstream_error_propagation (resp : HttpResp α)
    (fetchPage : Nat → Except AxiosErr (HttpResp α)) (pages : Nat → HttpResp α)
    (maxRecords T L k : Nat) (l0 : List α) (e e2 : AxiosErr) (s : String)
    (getAll2 : Bool) (max2 : Nat)
    (htc : (metaOf resp.data).total_count = some T)
    (hlim : (metaOf resp.data).limit = some L)
    (hL : 0 < L) (hTL : L < T) (hmax : T ≤ maxRecords)
    (hfield : resp.data.data.port_calls = some l0)
    (hk1 : 1 ≤ k) (hkR : k ≤ (T + L - 1) / L - 1)
    (hok : ∀ i, 1 ≤ i → i < k → fetchPage (i * L) = Except.ok (pages i))
    (hfail : fetchPage (k * L) = Except.error e) :
    getVesselPortCalls getAll2 max2 (Except.error e2) fetchPage =
      ((handleError e2 : ApiResponse α), []) ∧
    (handleError e2 : ApiResponse α).statusCode = orElseNat e2.responseStatus 500 ∧
    (handleError e2 : ApiResponse α).body =
      (match e2.responseData with
       | some b => if b != "" then Body.raw b else Body.errorOnly ("API request failed")
       | none => Body.errorOnly ("API request failed")) ∧
    (getVesselPortCalls true maxRecords (Except.ok resp) fetchPage).1 =
      createResponse (orElseNat e.responseStatus 500)
        (Body.errorMessage ("Error fetching additional records") (e.message)) ∧
    (getVesselPortCalls true maxRecords (Except.ok resp) fetchPage).1.body ≠
      Body.raw s := by
  have hmain : getVesselPortCalls true maxRecords (Except.ok resp) fetchPage =
      (createResponse (orElseNat e.responseStatus 500)
        (Body.errorMessage ("Error fetching additional records") (e.message)),
        (List.range k).map (fun j => (1 + j) * L)) := by
    rw [getVesselPortCalls_paginated resp fetchPage maxRecords T L htc hlim (by omega) hmax hTL]
    rw [hfield]
    have hk : k - 1 + 1 = k := by omega
    have hfail2 : fetchPage ((1 + (k - 1)) * L) = Except.error e := by
      have : 1 + (k - 1) = k := by omega
      rw [this]
      exact hfail
    rw [fetchLoop_fail fetchPage L pages e (k - 1) ((T + L - 1) / L - 1) 1 l0 (by omega)
      (fun j hj => hok (1 + j) (by omega) (by omega)) hfail2]
    rw [hk]
  refine ⟨rfl, rfl, rfl, ?_, ?_⟩
  · rw [hmain]
  · rw [hmain]
    simp [createResponse]

/-- Witness for C8 (amended), at the 404-with-body scenario: the initial-call
failure path propagates status and raw body, while the additional-fetch
failure at offset 1000 propagates the 404 status with the fixed error body. -/
theorem C8_upstream_error_propagation_witness :
    (getVesselPortCalls true 5000 (Except.error err404) fetchFailAt1000 =
      ((handleError err404 : ApiResponse Nat), []) ∧
    (handleError err404 : ApiResponse Nat).statusCode = orElseNat err404.responseStatus 500 ∧
    (handleError err404 : ApiResponse Nat).body =
      (match err404.responseData with
       | some b => if b != "" then Body.raw b else Body.errorOnly ("API request failed")
       | none => Body.errorOnly ("API request failed")) ∧
    (getVesselPortCalls true 5000 (Except.ok firstPage1200) fetchFailAt1000).1 =
      createResponse (orElseNat err404.responseStatus 500)
        (Body.errorMessage ("Error fetching additional records") (err404.message)) ∧
    (getVesselPortCalls true 5000 (Except.ok firstPage1200) fetchFailAt1000).1.body ≠
      Body.raw ("UPSTREAM_BODY")) :=
  C8_upstream_error_propagation firstPage1200 fetchFailAt1000 pages1200 5000 1200 500 2 [1, 2]
    err404 err404 ("UPSTREAM_BODY") true 5000
    rfl rfl (by decide) (by decide) (by decide) rfl (by decide) (by decide)
    (by
      intro i h1 h2
      have : i = 1 := by omega
      subst this
      rfl)
    rfl

/-! ## Helper lemmas: the polling loop -/

/-- One step of the ceiling-division iteration count. -/
theorem ceilDiv_step (i d : Nat) (hi : 0 < i) (hd : 0 < d) :
    (d + i - 1) / i = ((d - i) + i - 1) / i + 1 := by
  rcases le_or_lt d i with h | h
  · have e1 : d + i - 1 = (d - 1) + i := by omega
    have e2 : (d - i) + i - 1 = i - 1 := by omega
    rw [e1, e2, Nat.add_div_right _ hi, Nat.div_eq_of_lt (by omega),
      Nat.div_eq_of_lt (by omega)]
  · have e1 : d + i - 1 = ((d - i) + i - 1) + i := by omega
    rw [e1, Nat.add_div_right _ hi]

/-- One step of polling reduces the remaining iteration count by one. -/
theorem pollCount_step (intervalMs timeoutMs elapsed : Nat) (hi : 0 < intervalMs)
    (he : elapsed < timeoutMs) :
    pollCount intervalMs timeoutMs elapsed =
      pollCount intervalMs timeoutMs (elapsed + intervalMs) + 1 := by
  unfold pollCount
  have e1 : timeoutMs - (elapsed + intervalMs) = (timeoutMs - elapsed) - intervalMs := by
    omega
  rw [e1]
  exact ceilDiv_step intervalMs (timeoutMs - elapsed) hi (by omega)

/-- Once the timeout is reached, no iteration remains. -/
theorem pollCount_zero (intervalMs timeoutMs elapsed : Nat) (hi : 0 < intervalMs)
    (he : timeoutMs ≤ elapsed) : pollCount intervalMs timeoutMs elapsed = 0 := by
  unfold pollCount
  have e1 : timeoutMs - elapsed = 0 := by omega
  rw [e1]
  exact Nat.div_eq_of_lt (by omega)

/-- The polling loop when every poll is still pending: it runs exactly
`pollCount` iterations, polling at times `elapsed, elapsed + interval, …`, each
followed by one interval-long sleep, and times out with verdict `ERROR`. -/
theorem pollLoop_pending (poll : Nat → StatusResponse) (intervalMs timeoutMs : Nat)
    (hi : 0 < intervalMs) (hpend : ∀ k, terminalSeverity (poll k) = none) :
    ∀ fuel k elapsed, timeoutMs ≤ elapsed + fuel * intervalMs →
      pollLoop poll intervalMs timeoutMs fuel k elapsed =
        ⟨"ERROR", false,
          (List.range (pollCount intervalMs timeoutMs elapsed)).map
            (fun j => elapsed + j * intervalMs),
          List.replicate (pollCount intervalMs timeoutMs elapsed) intervalMs⟩ := by
  intro fuel
  induction fuel with
  | zero =>
    intro k elapsed hf
    rw [pollCount_zero intervalMs timeoutMs elapsed hi (by simpa using hf)]
    simp [pollLoop]
  | succ f ih =>
    intro k elapsed hf
    by_cases he : elapsed < timeoutMs
    · have hf2 : timeoutMs ≤ (elapsed + intervalMs) + f * intervalMs := by
        rw [Nat.succ_mul] at hf
        omega
      rw [pollCount_step intervalMs timeoutMs elapsed hi he]
      simp only [pollLoop, hpend k, he, if_true]
      rw [ih (k+1) (elapsed + intervalMs) hf2]
      have hshift : (List.range (pollCount intervalMs timeoutMs (elapsed + intervalMs) + 1)).map
          (fun j => elapsed + j * intervalMs) =
          elapsed :: (List.range (pollCount intervalMs timeoutMs (elapsed + intervalMs))).map
            (fun j => (elapsed + intervalMs) + j * intervalMs) := by
        rw [range_map_shift (fun j => elapsed + j * intervalMs)]
        have e2 : (fun j => elapsed + (j + 1) * intervalMs) =
            (fun j => (elapsed + intervalMs) + j * intervalMs) := by
          funext j
          ring_nf
        simp [e2]
      rw [hshift, List.replicate_succ]
    · rw [pollCount_zero intervalMs timeoutMs elapsed hi (by omega)]
      simp [pollLoop, he]

/-- Whenever the loop reports completion, its verdict was captured from some
poll response that passed the completion test. -/
theorem pollLoop_complete_source (poll : Nat → StatusResponse) (intervalMs timeoutMs : Nat) :
    ∀ fuel k elapsed,
      (pollLoop poll intervalMs timeoutMs fuel k elapsed).screeningComplete = true →
      ∃ j, terminalSeverity (poll j) =
        some (pollLoop poll intervalMs timeoutMs fuel k elapsed).overall_severity := by
  intro fuel
  induction fuel with
  | zero =>
    intro k elapsed h
    simp [pollLoop] at h
  | succ f ih =>
    intro k elapsed h
    by_cases he : elapsed < timeoutMs
    · cases hts : terminalSeverity (poll k) with
      | some sev =>
        refine ⟨k, ?_⟩
        simp [pollLoop, he, hts]
      | none =>
        have hred : pollLoop poll intervalMs timeoutMs (f+1) k elapsed =
            ⟨(pollLoop poll intervalMs timeoutMs f (k+1) (elapsed + intervalMs)).overall_severity,
              (pollLoop poll intervalMs timeoutMs f (k+1) (elapsed + intervalMs)).screeningComplete,
              elapsed :: (pollLoop poll intervalMs timeoutMs f (k+1)
                (elapsed + intervalMs)).pollTimes,
              intervalMs :: (pollLoop poll intervalMs timeoutMs f (k+1)
                (elapsed + intervalMs)).sleeps⟩ := by
          simp [pollLoop, he, hts]
        rw [hred] at h ⊢
        exact ih (k+1) (elapsed + intervalMs) h
    · simp [pollLoop, he] at h

/-- The polling loop when the first `n` polls are pending and poll `n` passes
the completion test within the timeout: exactly `n+1` polls at times
`elapsed, elapsed + interval, …`, with one interval-long sleep after each
non-terminal poll, returning the captured severity. -/
theorem pollLoop_completes (poll : Nat → StatusResponse) (intervalMs timeoutMs : Nat)
    (n : Nat) (sev : String) :
    ∀ fuel k elapsed, n < fuel →
      (∀ j, j < n → terminalSeverity (poll (k + j)) = none) →
      terminalSeverity (poll (k + n)) = some sev →
      elapsed + n * intervalMs < timeoutMs →
      pollLoop poll intervalMs timeoutMs fuel k elapsed =
        ⟨sev, true,
          (List.range (n+1)).map (fun j => elapsed + j * intervalMs),
          List.replicate n intervalMs⟩ := by
  induction n with
  | zero =>
    intro fuel k elapsed hfuel hpend hterm he
    obtain ⟨f, rfl⟩ : ∃ f, fuel = f + 1 := ⟨fuel - 1, by omega⟩
    have he0 : elapsed < timeoutMs := by simpa using he
    have hterm0 : terminalSeverity (poll k) = some sev := by simpa using hterm
    simp only [pollLoop, he0, if_true, hterm0]
    have : List.range 1 = [0] := rfl
    simp [this]
  | succ n ih =>
    intro fuel k elapsed hfuel hpend hterm he
    obtain ⟨f, rfl⟩ : ∃ f, fuel = f + 1 := ⟨fuel - 1, by omega⟩
    have hmul : (n + 1) * intervalMs = n * intervalMs + intervalMs := by
      rw [Nat.succ_mul]
    have he0 : elapsed < timeoutMs := by omega
    have h0 : terminalSeverity (poll k) = none := by simpa using hpend 0 (by omega)
    have hpend2 : ∀ j, j < n → terminalSeverity (poll (k + 1 + j)) = none := by
      intro j hj
      have := hpend (j + 1) (by omega)
      have e3 : k + (j + 1) = k + 1 + j := by omega
      rwa [e3] at this
    have hterm2 : terminalSeverity (poll (k + 1 + n)) = some sev := by
      have e3 : k + (n + 1) = k + 1 + n := by omega
      rwa [e3] at hterm
    have he2 : (elapsed + intervalMs) + n * intervalMs < timeoutMs := by omega
    simp only [pollLoop, he0, if_true, h0]
    rw [ih f (k+1) (elapsed + intervalMs) (by omega) hpend2 hterm2 he2]
    have hshift : (List.range (n+2)).map (fun j => elapsed + j * intervalMs) =
        elapsed :: (List.range (n+1)).map
          (fun j => (elapsed + intervalMs) + j * intervalMs) := by
      rw [range_map_shift (fun j => elapsed + j * intervalMs)]
      have e2 : (fun j => elapsed + (j + 1) * intervalMs) =
          (fun j => (elapsed + intervalMs) + j * intervalMs) := by
        funext j
        ring_nf
      simp [e2]
    rw [hshift, List.replicate_succ]

/-! ## Claim theorems: the polling screener -/

/-- C3: if every poll is still pending, screening returns the verdict `ERROR`
as a value (completion stays false); every poll is issued strictly before the
timeout moment, consecutive polls are at least one interval apart, and when
the timeout is a multiple of the interval the number of polls is at most
`timeoutMs / intervalMs`. -/
theorem C3_screening_timeout (poll : Nat → StatusResponse)
    (initialDelayMs intervalMs timeoutMs : Nat) (hi : 0 < intervalMs)
    (hpend : ∀ k, terminalSeverity (poll k) = none) :
    (handleAutoScreening poll initialDelayMs intervalMs timeoutMs).overall_severity
      = "ERROR" ∧
    (handleAutoScreening poll initialDelayMs intervalMs timeoutMs).screeningComplete
      = false ∧
    (∀ t ∈ (handleAutoScreening poll initialDelayMs intervalMs timeoutMs).pollTimes,
      t < timeoutMs) ∧
    List.Chain' (fun a b => a + intervalMs ≤ b)
      (handleAutoScreening poll initialDelayMs intervalMs timeoutMs).pollTimes ∧
    (intervalMs ∣ timeoutMs →
      (handleAutoScreening poll initialDelayMs intervalMs timeoutMs).pollTimes.length ≤
        timeoutMs / intervalMs) := by
  have hfuel : timeoutMs ≤ 0 + (timeoutMs + 1) * intervalMs := by
    have h1 : timeoutMs + 1 ≤ (timeoutMs + 1) * intervalMs :=
      Nat.le_mul_of_pos_right _ hi
    omega
  have hchar : handleAutoScreening poll initialDelayMs intervalMs timeoutMs =
      ⟨"ERROR", false,
        (List.range (pollCount intervalMs timeoutMs 0)).map (fun j => 0 + j * intervalMs),
        initialDelayMs :: List.replicate (pollCount intervalMs timeoutMs 0) intervalMs⟩ := by
    unfold handleAutoScreening
    rw [pollLoop_pending poll intervalMs timeoutMs hi hpend (timeoutMs + 1) 0 0 hfuel]
  rw [hchar]
  refine ⟨rfl, rfl, ?_, ?_, ?_⟩
  · intro t ht
    simp only [List.mem_map, List.mem_range] at ht
    obtain ⟨j, hj, rfl⟩ := ht
    simp only [pollCount] at hj
    have hj2 : (j + 1) * intervalMs ≤ timeoutMs - 0 + intervalMs - 1 :=
      (Nat.le_div_iff_mul_le hi).mp hj
    have hmul : (j + 1) * intervalMs = j * intervalMs + intervalMs :=
      Nat.succ_mul j intervalMs
    omega
  · rw [List.chain'_map]
    cases hM : pollCount intervalMs timeoutMs 0 with
    | zero => simp
    | succ m =>
      rw [List.chain'_range_succ]
      intro a ha
      simp only [Nat.succ_mul]
      omega
  · intro hdvd
    obtain ⟨q, hq⟩ := hdvd
    simp only [List.length_map, List.length_range, pollCount, hq]
    have e1 : intervalMs * q - 0 + intervalMs - 1 = (intervalMs - 1) + intervalMs * q := by
      omega
    rw [e1, Nat.add_mul_div_left _ _ hi, Nat.mul_div_cancel_left _ hi,
      Nat.div_eq_of_lt (by omega)]
    omega

/-- Witness for C3: an always-pending poll with interval 5000 and timeout
20000 ends with verdict `ERROR` after at most 4 polls. -/
theorem C3_screening_timeout_witness :
    (handleAutoScreening alwaysPending 5000 5000 20000).overall_severity = "ERROR" ∧
    (handleAutoScreening alwaysPending 5000 5000 20000).screeningComplete = false ∧
    (handleAutoScreening alwaysPending 5000 5000 20000).pollTimes.length ≤ 20000 / 5000 :=
  ⟨(C3_screening_timeout alwaysPending 5000 5000 20000 (by decide) (fun _ => rfl)).1,
    (C3_screening_timeout alwaysPending 5000 5000 20000 (by decide) (fun _ => rfl)).2.1,
    (C3_screening_timeout alwaysPending 5000 5000 20000 (by decide)
      (fun _ => rfl)).2.2.2.2 (by decide)⟩

/-- C4 counterexample: at the source's configuration (interval 5000, timeout
300000) a sequence that is pending for its first 60 polls and then terminal
with severity LOW does *not* yield LOW after 61 polls — the timeout fires
first, yielding `ERROR` after 60 polls, so the claim needs the bound
`n * pollIntervalMs < timeoutMs`. -/
theorem C4_counterexample :
    ¬ ((handleAutoScreeningDefault pendingSixtyThenLow).overall_severity = "LOW" ∧
       (handleAutoScreeningDefault pendingSixtyThenLow).pollTimes.length = 61) ∧
    (handleAutoScreeningDefault pendingSixtyThenLow).overall_severity = "ERROR" ∧
    (handleAutoScreeningDefault pendingSixtyThenLow).pollTimes.length = 60 := by
  decide

/-- C4 (amended): for a poll sequence pending on its first `n` calls and
terminal with some severity on call `n`, *provided `n * pollIntervalMs <
timeoutMs`*, screening returns exactly that severity after exactly `n+1`
polls, with waits `initialDelayMs` then `n × pollIntervalMs`. -/
theorem C4_screening_completes (poll : Nat → StatusResponse)
    (initialDelayMs intervalMs timeoutMs n : Nat) (sev : String)
    (hi : 0 < intervalMs)
    (hpend : ∀ j, j < n → terminalSeverity (poll j) = none)
    (hterm : terminalSeverity (poll n) = some sev)
    (hn : n * intervalMs < timeoutMs) :
    handleAutoScreening poll initialDelayMs intervalMs timeoutMs =
      ⟨sev, true, (List.range (n+1)).map (fun j => j * intervalMs),
        initialDelayMs :: List.replicate n intervalMs⟩ := by
  have hfuel : n < timeoutMs + 1 := by
    have h1 : n ≤ n * intervalMs := Nat.le_mul_of_pos_right n hi
    omega
  unfold handleAutoScreening
  rw [pollLoop_completes poll intervalMs timeoutMs n sev (timeoutMs + 1) 0 0 hfuel
    (by simpa using hpend) (by simpa using hterm) (by simpa using hn)]
  simp

/-- Witness for C4 (amended): pending twice then LOW, at the source's
configuration — verdict LOW after exactly 3 polls, waits 5000 then 2 × 5000. -/
theorem C4_screening_completes_witness :
    handleAutoScreening pendingTwiceThenLow 5000 5000 300000 =
      ⟨"LOW", true, (List.range 3).map (fun j => j * 5000),
        5000 :: List.replicate 2 5000⟩ :=
  C4_screening_completes pendingTwiceThenLow 5000 5000 300000 2 ("LOW")
    (by decide) (by decide) rfl (by decide)

/-- C10: a status response with a missing or empty `objects` array never
passes the completion test; when every response is like that the run neither
fails nor completes — it polls, sleeps one interval after every poll and ends
in the timeout verdict `ERROR` — and a verdict is captured only from a
response whose (non-empty) `objects` head has a non-PENDING status with report
generation complete. -/
theorem C10_empty_objects_pending (poll : Nat → StatusResponse)
    (initialDelayMs intervalMs timeoutMs : Nat) (hi : 0 < intervalMs) :
    (∀ r : StatusResponse, r.objects = none ∨ r.objects = some [] →
      terminalSeverity r = none) ∧
    ((∀ k, (poll k).objects = none ∨ (poll k).objects = some []) →
      (handleAutoScreening poll initialDelayMs intervalMs timeoutMs).overall_severity
        = "ERROR" ∧
      (handleAutoScreening poll initialDelayMs intervalMs timeoutMs).screeningComplete
        = false ∧
      (handleAutoScreening poll initialDelayMs intervalMs timeoutMs).sleeps =
        initialDelayMs :: List.replicate
          (handleAutoScreening poll initialDelayMs intervalMs timeoutMs).pollTimes.length
          intervalMs) ∧
    ((handleAutoScreening poll initialDelayMs intervalMs timeoutMs).screeningComplete
        = true →
      ∃ o rest j, (poll j).objects = some (o :: rest) ∧
        o.screening_status ≠ "PENDING" ∧ o.report_generation_complete = true ∧
        (handleAutoScreening poll initialDelayMs intervalMs timeoutMs).overall_severity =
          o.overall_severity) := by
  have hempty : ∀ r : StatusResponse, r.objects = none ∨ r.objects = some [] →
      terminalSeverity r = none := by
    intro r h
    rcases h with h | h <;> simp [terminalSeverity, h]
  refine ⟨hempty, ?_, ?_⟩
  · intro hall
    have hpend : ∀ k, terminalSeverity (poll k) = none := fun k => hempty (poll k) (hall k)
    have hfuel : timeoutMs ≤ 0 + (timeoutMs + 1) * intervalMs := by
      have h1 : timeoutMs + 1 ≤ (timeoutMs + 1) * intervalMs :=
        Nat.le_mul_of_pos_right _ hi
      omega
    have hchar : handleAutoScreening poll initialDelayMs intervalMs timeoutMs =
        ⟨"ERROR", false,
          (List.range (pollCount intervalMs timeoutMs 0)).map (fun j => 0 + j * intervalMs),
          initialDelayMs :: List.replicate (pollCount intervalMs timeoutMs 0) intervalMs⟩ := by
      unfold handleAutoScreening
      rw [pollLoop_pending poll intervalMs timeoutMs hi hpend (timeoutMs + 1) 0 0 hfuel]
    rw [hchar]
    refine ⟨rfl, rfl, ?_⟩
    simp
  · intro hc
    have hc2 : (pollLoop poll intervalMs timeoutMs (timeoutMs + 1) 0 0).screeningComplete
        = true := hc
    obtain ⟨j, hj⟩ :=
      pollLoop_complete_source poll intervalMs timeoutMs (timeoutMs + 1) 0 0 hc2
    cases hobj : (poll j).objects with
    | none => simp [terminalSeverity, hobj] at hj
    | some os =>
      cases os with
      | nil => simp [terminalSeverity, hobj] at hj
      | cons o rest =>
        simp only [terminalSeverity, hobj] at hj
        by_cases hcond :
            (o.screening_status != "PENDING" && o.report_generation_complete) = true
        · rw [if_pos hcond] at hj
          obtain ⟨h1, h2⟩ := Bool.and_eq_true_iff.mp hcond
          refine ⟨o, rest, j, hobj, bne_iff_ne.mp h1, h2, ?_⟩
          exact (Option.some.inj hj).symm
        · rw [if_neg hcond] at hj
          exact absurd hj (by simp)

/-- Witness for C10: an always-empty-objects poll with interval 5000 and
timeout 20000 ends in `ERROR` without completing, with one interval-long
sleep after each poll. -/
theorem C10_empty_objects_pending_witness :
    (handleAutoScreening alwaysEmptyObjects 5000 5000 20000).overall_severity = "ERROR" ∧
    (handleAutoScreening alwaysEmptyObjects 5000 5000 20000).screeningComplete = false ∧
    (handleAutoScreening alwaysEmptyObjects 5000 5000 20000).sleeps =
      5000 :: List.replicate
        (handleAutoScreening alwaysEmptyObjects 5000 5000 20000).pollTimes.length 5000 :=
  (C10_empty_objects_pending alwaysEmptyObjects 5000 5000 20000 (by decide)).2.1
    (fun _ => Or.inr rfl)

/-! ## Claim theorem: the webhook store absorbs screening failures -/

/-- C7: for a notification whose custom reference contains `AUTO_SCREENING`,
a screening failure (submission or poll throw) is absorbed at the call site:
the notification is stored unchanged — in particular without an
`auto_screening` verdict — and the store operation returns its normal 201
success response. -/
theorem C7_screening_failure_absorbed (data : WebhookNotification)
    (msg newId r : String)
    (href : data.custom_reference = some r)
    (hauto : includesSub r ("AUTO_SCREENING") = true)
    (hverd : data.auto_screening = none) :
    storeWebhookNotification data (Except.error msg) newId =
      { statusCode := 201
        body := StoreBody.success newId ("Notification stored successfully")
        stored := some ⟨newId, data.event_timestamp, data.subscription_id, data⟩ } ∧
    (storeWebhookNotification data (Except.error msg) newId).stored.map
      (fun it => it.data.auto_screening) = some none := by
  have hmain : storeWebhookNotification data (Except.error msg) newId =
      { statusCode := 201
        body := StoreBody.success newId ("Notification stored successfully")
        stored := some ⟨newId, data.event_timestamp, data.subscription_id, data⟩ } := by
    cases him : data.imo with
    | none => simp [storeWebhookNotification, href, hauto, him]
    | some imo => simp [storeWebhookNotification, href, hauto, him]
  refine ⟨hmain, ?_⟩
  rw [hmain]
  simp [hverd]

/-- Witness for C7: a concrete auto-screening notification whose screening
throws is stored verdict-free with a 201. -/
theorem C7_screening_failure_absorbed_witness :
    (storeWebhookNotification autoScreeningNotification (Except.error ("boom")) "id-1" =
      { statusCode := 201
        body := StoreBody.success ("id-1") ("Notification stored successfully")
        stored := some ⟨"id-1", autoScreeningNotification.event_timestamp,
          autoScreeningNotification.subscription_id, autoScreeningNotification⟩ } ∧
    (storeWebhookNotification autoScreeningNotification (Except.error ("boom")) "id-1").stored.map
      (fun it => it.data.auto_screening) = some none) :=
  C7_screening_failure_absorbed autoScreeningNotification ("boom") ("id-1")
    ("X_AUTO_SCREENING_Y") rfl (by decide) rfl

end DevPortal
